import Mathlib

/-!
# Verification of the OSAL shared object-handle / resource layer

Shallow embedding of the shared-layer C sources of the OSAL repository
(`src/osal/src/os/shared/src/*.c` plus the VxWorks binsem adapter), with
theorems settling the frozen claims about the natural-language spec.

Conventions:
* C `int32` status codes are modelled as `Int`, with the standard OSAL
  error-code values.
* C strings are modelled as `List Char` (the bytes before the NUL).
* 32-bit machine arithmetic is modelled on `Int`/`Nat` with explicit
  reduction mod `2^32` where the C code can overflow (`i32`, `u32`).
* Calls into the platform adapter (`*_Impl`) and into the ID-manager
  (`OS_ObjectIdGetById` etc., whose sources are not part of this tree)
  are abstracted as explicit parameters carrying their result, so that
  every theorem quantifies over all possible adapter behaviours.
-/

namespace Osal

/-! ## Status codes (values per the standard OSAL `osapi-error.h`) -/

def OS_SUCCESS : Int := 0
def OS_ERROR : Int := -1
def OS_INVALID_POINTER : Int := -2
def OS_SEM_FAILURE : Int := -6
def OS_QUEUE_INVALID_SIZE : Int := -11
def OS_ERR_NAME_TOO_LONG : Int := -13
def OS_ERR_NO_FREE_IDS : Int := -14
def OS_ERR_NAME_TAKEN : Int := -15
def OS_ERR_INVALID_ID : Int := -16
def OS_ERR_NAME_NOT_FOUND : Int := -17
def OS_TIMER_ERR_INVALID_ARGS : Int := -29
def OS_ERR_INCORRECT_OBJ_STATE : Int := -35
def OS_FS_ERR_PATH_TOO_LONG : Int := -103
def OS_FS_ERR_NAME_TOO_LONG : Int := -104
def OS_FS_ERR_DEVICE_NOT_FREE : Int := -107
def OS_FS_ERR_PATH_INVALID : Int := -108

/-- Object type code for timebases (`OS_OBJECT_TYPE_OS_TIMEBASE`). -/
def OS_OBJECT_TYPE_OS_TIMEBASE : Nat := 8

/-- `INT_MAX` for the 32-bit platforms the code targets. -/
def INT_MAX : Int := 2 ^ 31 - 1

/-! ## 32-bit machine arithmetic helpers -/

/-- Reduce an unbounded integer to the value of the `int32` that the C
program would store (two's-complement wrap-around). -/
def i32 (x : Int) : Int := (x + 2 ^ 31) % 2 ^ 32 - 2 ^ 31

/-- Range of a stored `int32` value. -/
theorem i32_range (x : Int) : -2 ^ 31 ≤ i32 x ∧ i32 x < 2 ^ 31 := by
  unfold i32; omega

/-- `i32` is the identity on in-range values. -/
theorem i32_eq_self {x : Int} (h1 : -2 ^ 31 ≤ x) (h2 : x < 2 ^ 31) : i32 x = x := by
  unfold i32; omega

/-- `i32` is idempotent. -/
theorem i32_i32 (x : Int) : i32 (i32 x) = i32 x := by
  unfold i32; omega

/-! ## C5 — `OS_Milli2Ticks` (src/osal/src/os/shared/src/osapi-timebase.c:543)

```c
int32 OS_Milli2Ticks(uint32 milli_seconds, int *ticks)
{
    uint64 num_of_ticks;
    int32  return_code = OS_SUCCESS;
    num_of_ticks = (((uint64)milli_seconds * OS_SharedGlobalVars.TicksPerSecond) + 999) / 1000;
    if (num_of_ticks <= INT_MAX) { *ticks = (int)num_of_ticks; }
    else { return_code = OS_ERROR; *ticks = 0; }
    return return_code;
}
```

`milli_seconds` and `TicksPerSecond` are nonnegative 32-bit values, so the
64-bit intermediate `milli_seconds * TicksPerSecond + 999` cannot overflow
and is modelled exactly on `Nat`.  Output: `(return_code, *ticks)`. -/

def OS_Milli2Ticks (milli_seconds ticksPerSecond : Nat) : Int × Int :=
  let num_of_ticks : Nat := (milli_seconds * ticksPerSecond + 999) / 1000
  if (num_of_ticks : Int) ≤ INT_MAX then
    (OS_SUCCESS, (num_of_ticks : Int))
  else
    (OS_ERROR, 0)

/-! `OS_BinSemTimedWait_Impl` (src/osal/src/os/vxworks/src/os-impl-binsem.c:168)

```c
int32 OS_BinSemTimedWait_Impl(uint32 sem_id, uint32 msecs)
{
    int ticks; int32 status;
    status = OS_Milli2Ticks(msecs, &ticks);
    if (status == OS_SUCCESS)
        status = OS_VxWorks_GenericSemTake(OS_impl_bin_sem_table[sem_id].vxid, ticks);
    return status;
}
```

The adapter call `OS_VxWorks_GenericSemTake` is abstracted as the function
parameter `semTake`; the `Option Int` output records the tick value that was
delivered to the platform (`none` when the take was never invoked). -/

def OS_BinSemTimedWait_Impl (semTake : Int → Int) (msecs ticksPerSecond : Nat) :
    Int × Option Int :=
  let r := OS_Milli2Ticks msecs ticksPerSecond
  if r.1 = OS_SUCCESS then
    (semTake r.2, some r.2)
  else
    (r.1, none)

/-! ## C6 — `OS_DeleteAllObjects` (src/osal/src/os/shared/src/osapi-common.c:329)

```c
void OS_DeleteAllObjects(void)
{
    uint32 ObjectCount; uint32 TryCount;
    TryCount = 0;
    while (true)
    {
        ObjectCount = 0;
        ++TryCount;
        OS_ForEachObject(OS_OBJECT_CREATOR_ANY, OS_CleanUpObject, &ObjectCount);
        if (ObjectCount == 0 || TryCount > 4) { break; }
        OS_TaskDelay(5);
    }
    while (ObjectCount > 0 && TryCount < 5)
        ;
}
```

Each `OS_ForEachObject` pass visits every live object once, invoking the
per-type delete dispatch, and leaves in `ObjectCount` the number of objects
it visited.  The pass outcome is abstracted as `counts : Nat → Nat`, giving
the object count produced by the pass executed at each `TryCount` value
(`counts k` is the count of the pass run when `TryCount` was `k+1`).
The recursion returns the final `(TryCount, ObjectCount)` pair at the point
the main loop exits. -/

def deleteAllLoop (counts : Nat → Nat) (tryCount : Nat) : Nat × Nat :=
  let objectCount := counts tryCount
  let tryCount' := tryCount + 1
  if objectCount = 0 ∨ tryCount' > 4 then
    (tryCount', objectCount)
  else
    deleteAllLoop counts tryCount'
termination_by 5 - tryCount
decreasing_by omega

def OS_DeleteAllObjects (counts : Nat → Nat) : Nat × Nat :=
  deleteAllLoop counts 0

/-- The trailing busy-wait `while (ObjectCount > 0 && TryCount < 5);` spins
while this predicate holds on the state at main-loop exit. -/
def trailingSpinCondition (s : Nat × Nat) : Prop := s.2 > 0 ∧ s.1 < 5

instance (s : Nat × Nat) : Decidable (trailingSpinCondition s) := by
  unfold trailingSpinCondition; infer_instance

/-! ## C7 — `OS_API_Init` (src/osal/src/os/shared/src/osapi-common.c:109)

The global state relevant to the claim: the `Initialized` flag plus an
abstract view of everything the initialization sequence touches (common
tables, per-type adapter and wrapper state, tick globals).  The whole body
after the flag is set is abstracted as `initBody`, a state transformer
returning the final status; the claim is about the guard in front of it:

```c
if (OS_SharedGlobalVars.Initialized != false)
{
    OS_DEBUG("WARNING: BUG - initialization function called multiple times\n");
    return OS_ERROR;
}
OS_SharedGlobalVars.Initialized = true;
...   // table init, per-type impl + wrapper init, network/socket init
```
-/

structure GlobalState (α : Type) where
  initialized : Bool
  rest : α

def OS_API_Init {α : Type} (initBody : GlobalState α → GlobalState α × Int)
    (s : GlobalState α) : GlobalState α × Int :=
  if s.initialized then
    (s, OS_ERROR)
  else
    initBody { s with initialized := true }

/-! ## Filesystem layer (src/osal/src/os/shared/src/osapi-filesys.c)

Compile-time limits come from `osconfig.h`, which is not part of this tree;
they are carried in a `FsConfig` record and the theorems quantify over them
(concrete instances use the customary defaults). -/

structure FsConfig where
  maxPathLen : Nat      -- OS_MAX_PATH_LEN (= sizeof virtual_mountpt)
  maxFileName : Nat     -- OS_MAX_FILE_NAME
  maxLocalPathLen : Nat -- OS_MAX_LOCAL_PATH_LEN (= sizeof system_mountpt)
  fsDevNameLen : Nat    -- OS_FS_DEV_NAME_LEN (= sizeof device_name)

def defaultFsConfig : FsConfig :=
  { maxPathLen := 64, maxFileName := 20, maxLocalPathLen := 64, fsDevNameLen := 32 }

/-- The `flags` bitmap of `OS_filesys_internal_record_t`.  The four bits
{READY, FIXED, MOUNTED_SYSTEM, MOUNTED_VIRTUAL} are distinct, so the bitmap
is represented as four booleans; `flags & ~OS_FILESYS_FLAG_IS_FIXED == M`
translates to equality of the three non-FIXED booleans with mask `M`. -/
structure FileSysFlags where
  isReady : Bool          -- OS_FILESYS_FLAG_IS_READY
  isFixed : Bool          -- OS_FILESYS_FLAG_IS_FIXED
  isMountedSystem : Bool  -- OS_FILESYS_FLAG_IS_MOUNTED_SYSTEM
  isMountedVirtual : Bool -- OS_FILESYS_FLAG_IS_MOUNTED_VIRTUAL
  deriving DecidableEq

/-- One slot of `OS_filesys_table` together with the activity of the
corresponding common record (`active_id` defined or not). -/
structure FileSysEntry where
  active : Bool
  device_name : List Char
  volume_name : List Char
  system_mountpt : List Char
  virtual_mountpt : List Char
  flags : FileSysFlags
  deriving DecidableEq

/-- `OS_FileSys_FindVirtMountPoint` (osapi-filesys.c:77):

```c
if ((rec->flags & OS_FILESYS_FLAG_IS_MOUNTED_VIRTUAL) == 0) return false;
mplen = strlen(rec->virtual_mountpt);
return (mplen > 0 && strncmp(target, rec->virtual_mountpt, mplen) == 0 &&
        (target[mplen] == '/' || target[mplen] == 0));
```

`strncmp(target, mp, mplen) == 0` (both NUL-terminated, `mp` of length
`mplen`) holds exactly when `mp` is a prefix of `target`; `target[mplen]`
is then the next character of `target`, or NUL at its end. -/
def OS_FileSys_FindVirtMountPoint (target : List Char) (rec : FileSysEntry) : Bool :=
  if ¬ rec.flags.isMountedVirtual then
    false
  else
    let mplen := rec.virtual_mountpt.length
    decide (0 < mplen) && decide (target.take mplen = rec.virtual_mountpt) &&
      (decide (target.get? mplen = some '/') || decide (target.length = mplen))

/-- Modelled from the spec: `OS_ObjectIdGetBySearch` / `OS_ObjectIdGetByName`
(osapi-idmap.c, not part of this source tree) walk all active slots of the
type's table under the lock and return the first match (§4.D.5 "first match
wins", failure `NAME_NOT_FOUND`).  Returns the slot index and record. -/
def fsSearch (table : List FileSysEntry) (p : FileSysEntry → Bool) :
    Option (Nat × FileSysEntry) :=
  match table.findIdx? (fun r => r.active && p r) with
  | none => none
  | some i => (table.get? i).map (fun r => (i, r))

/-- Length of the filename component: the characters after the last `/`
(`name_ptr = strrchr(VirtualPath, '/') + 1`). -/
def filenameAfterLastSlash (p : List Char) : List Char :=
  (p.reverse.takeWhile (fun c => c ≠ '/')).reverse

/-- `OS_TranslatePath` (osapi-filesys.c:836), for non-null argument
pointers.  Output is the status code and, on success, the produced
`LocalPath` (`system_mountpt ++ remainder of the virtual path`); error
paths do not produce an output path. -/
def OS_TranslatePath (cfg : FsConfig) (table : List FileSysEntry)
    (vpath : List Char) : Int × Option (List Char) :=
  let vlen := vpath.length
  if vlen ≥ cfg.maxPathLen then
    (OS_FS_ERR_PATH_TOO_LONG, none)
  else if ¬ vpath.contains '/' then
    -- strrchr(VirtualPath, '/') == NULL
    (OS_FS_ERR_PATH_INVALID, none)
  else if (filenameAfterLastSlash vpath).length ≥ cfg.maxFileName then
    (OS_FS_ERR_NAME_TOO_LONG, none)
  else if vpath.head? ≠ some '/' then
    (OS_FS_ERR_PATH_INVALID, none)
  else
    match fsSearch table (OS_FileSys_FindVirtMountPoint vpath) with
    | none => (OS_FS_ERR_PATH_INVALID, none)
    | some (_, rec) =>
      if rec.flags.isMountedSystem then
        let sysMountPointLen := rec.system_mountpt.length
        let virtPathBegin := rec.virtual_mountpt.length
        if vlen < virtPathBegin then
          (OS_FS_ERR_PATH_INVALID, none)
        else if sysMountPointLen + (vlen - virtPathBegin) < cfg.maxLocalPathLen then
          (OS_SUCCESS, some (rec.system_mountpt ++ vpath.drop virtPathBegin))
        else
          (OS_FS_ERR_PATH_TOO_LONG, none)
      else
        (OS_ERR_INCORRECT_OBJ_STATE, none)

/-- The inner status of `OS_mount` after a successful lookup: flag-state
check, system-mount-point check, then the platform mount call. -/
def mountInnerRC (rec : FileSysEntry) (implMount : Int) : Int :=
  if ¬ (rec.flags.isReady ∧ ¬ rec.flags.isMountedSystem ∧
        ¬ rec.flags.isMountedVirtual) then
    -- (flags & ~FIXED) != OS_FILESYS_FLAG_IS_READY
    OS_ERR_INCORRECT_OBJ_STATE
  else if rec.system_mountpt.length = 0 then
    OS_FS_ERR_PATH_INVALID
  else
    implMount

/-- `OS_mount` (osapi-filesys.c:435), for non-null argument pointers.  The
platform call `OS_FileSysMountVolume_Impl` is abstracted as the parameter
`implMount` (its status when invoked).  Returns the final status and the
updated filesystem table. -/
def OS_mount (cfg : FsConfig) (implMount : Int) (table : List FileSysEntry)
    (devname mountpoint : List Char) : Int × List FileSysEntry :=
  if devname.length ≥ cfg.fsDevNameLen ∨ mountpoint.length ≥ cfg.maxPathLen then
    (OS_FS_ERR_PATH_TOO_LONG, table)
  else
    match fsSearch table (fun r => r.device_name = devname) with
    | none =>
      -- lookup failed; the trailing `if (return_code != OS_SUCCESS)`
      -- rewrites the code to OS_ERR_NAME_NOT_FOUND
      (OS_ERR_NAME_NOT_FOUND, table)
    | some (i, rec) =>
      if mountInnerRC rec implMount = OS_SUCCESS then
        (OS_SUCCESS,
         table.set i
           { rec with
             flags := { rec.flags with isMountedSystem := true, isMountedVirtual := true }
             virtual_mountpt := mountpoint })
      else
        (OS_ERR_NAME_NOT_FOUND, table)

/-- The inner status of `OS_unmount` after a successful lookup. -/
def unmountInnerRC (rec : FileSysEntry) (implUnmount : Int) : Int :=
  if ¬ (rec.flags.isReady ∧ rec.flags.isMountedSystem ∧
        rec.flags.isMountedVirtual) then
    -- (flags & ~FIXED) != (READY | MOUNTED_SYSTEM | MOUNTED_VIRTUAL)
    OS_ERR_INCORRECT_OBJ_STATE
  else
    implUnmount

/-- `OS_unmount` (osapi-filesys.c:511), for a non-null argument pointer.
The platform call `OS_FileSysUnmountVolume_Impl` is abstracted as
`implUnmount`. -/
def OS_unmount (cfg : FsConfig) (implUnmount : Int) (table : List FileSysEntry)
    (mountpoint : List Char) : Int × List FileSysEntry :=
  if mountpoint.length ≥ cfg.maxPathLen then
    (OS_FS_ERR_PATH_TOO_LONG, table)
  else
    match fsSearch table (OS_FileSys_FindVirtMountPoint mountpoint) with
    | none => (OS_ERR_NAME_NOT_FOUND, table)
    | some (i, rec) =>
      if unmountInnerRC rec implUnmount = OS_SUCCESS then
        (OS_SUCCESS,
         table.set i
           { rec with
             flags := { rec.flags with isMountedSystem := false, isMountedVirtual := false } })
      else
        (OS_ERR_NAME_NOT_FOUND, table)

/-! ## Queue layer (src/osal/src/os/shared/src/osapi-queue.c)

The internal queue record carries `max_depth` and `max_size`
(`OS_queue_internal_record_t`); `OS_ObjectIdGetById` (osapi-idmap.c, not in
this tree) is abstracted as the parameter `lookup`, carrying the resolved
slot index on success and `none` on failure (the wrapper then propagates the
lookup's error status, abstracted as `lookupErr`). -/

structure QueueRecord where
  max_depth : Nat
  max_size : Nat

/-- Result of `OS_QueueGet`: status code, value written through
`size_copied` (`none` = never written), and whether the platform adapter's
`OS_QueueGet_Impl` was invoked (consuming a message). -/
structure QueueGetResult where
  status : Int
  size_copied : Option Nat
  implCalled : Bool
  deriving DecidableEq

/-- `OS_QueueGet` (osapi-queue.c:167), for non-null `data`/`size_copied`
pointers.  `implResult` abstracts `OS_QueueGet_Impl` (its status and the
size it copies when invoked). -/
def OS_QueueGet (queueTable : Nat → QueueRecord) (lookup : Option Nat)
    (lookupErr : Int) (implResult : Int × Nat) (size : Nat) : QueueGetResult :=
  match lookup with
  | none => { status := lookupErr, size_copied := none, implCalled := false }
  | some local_id =>
    if size < (queueTable local_id).max_size then
      { status := OS_QUEUE_INVALID_SIZE, size_copied := some 0, implCalled := false }
    else
      { status := implResult.1, size_copied := some implResult.2, implCalled := true }

/-! ## Timebase callback engine (src/osal/src/os/shared/src/osapi-timebase.c)

`OS_TimeBase_CallbackThread` (osapi-timebase.c:387) processes, per tick and
per timer-callback record on the timebase's ring:

```c
saved_wait_time = timecb->wait_time;
timecb->wait_time -= tick_time;
while (timecb->wait_time <= 0)
{
    timecb->wait_time += timecb->interval_time;
    if (timecb->wait_time < -timecb->interval_time)
    {
        ++timecb->backlog_resets;
        timecb->wait_time = -timecb->interval_time;
    }
    if (saved_wait_time > 0 && timecb->callback_ptr != NULL)
        (*timecb->callback_ptr)(curr_cb_public_id, timecb->callback_arg);
    if (timecb->interval_time <= 0)
        break;
}
```

`wait_time` and `interval_time` are `int32` and `tick_time` is `uint32`, so
every store passes through `i32`.  The embedding returns the fire count of
the step alongside the updated record. -/

/-- One timer-callback record (`OS_timecb_internal_record_t`, fields used by
the tick-processing step). `callback_set` models `callback_ptr != NULL`. -/
structure TimeCB where
  wait_time : Int
  interval_time : Int
  backlog_resets : Nat
  callback_set : Bool
  deriving DecidableEq

/-- Termination measure for the catch-up loop: once the interval is
positive, each iteration moves the (clamped) wait time up through the phases
`< -interval` → `[-interval, 0)` → `0` → `> 0` (exit). -/
def catchupMeasure (interval wait : Int) : Nat :=
  if i32 wait < -(i32 interval) then 3
  else if i32 wait < 0 then 2
  else if i32 wait = 0 then 1
  else 0

/-- The loop body strictly decreases the phase measure whenever the loop
continues (`wait ≤ 0` on entry and `interval > 0`). -/
theorem catchupMeasure_decreasing (interval wait : Int)
    (hw : i32 wait ≤ 0) (hI : ¬ i32 interval ≤ 0) :
    catchupMeasure (i32 interval)
      (if i32 (i32 wait + i32 interval) < i32 (-(i32 interval)) then i32 (-(i32 interval))
       else i32 (i32 wait + i32 interval)) < catchupMeasure interval wait := by
  have hJr := i32_range interval
  have hwr := i32_range wait
  have hnegJ : i32 (-(i32 interval)) = -(i32 interval) :=
    i32_eq_self (by omega) (by omega)
  have hsum : i32 (i32 wait + i32 interval) = i32 wait + i32 interval :=
    i32_eq_self (by omega) (by omega)
  rw [hnegJ, hsum]
  unfold catchupMeasure
  rw [i32_i32]
  by_cases hclamp : i32 wait + i32 interval < -(i32 interval)
  · rw [if_pos hclamp, hnegJ]
    split_ifs <;> omega
  · rw [if_neg hclamp, hsum]
    split_ifs <;> omega

/-- The `while (timecb->wait_time <= 0)` catch-up loop.  Arguments mirror
the C state: `saved` = `saved_wait_time`, `c` = `callback_ptr != NULL`,
`interval`/`wait` the record fields, `backlog` = `backlog_resets`, `fires`
the number of callback invocations so far.  Values are reduced to their
stored `int32` range on entry (a no-op for values produced by the C code).
Returns final `(wait_time, backlog_resets, fires)`. -/
def timerCatchupLoop (saved : Int) (c : Bool) (interval wait : Int)
    (backlog fires : Nat) : Int × Nat × Nat :=
  let I := i32 interval
  let w := i32 wait
  if w ≤ 0 then
    let w1 := i32 (w + I)
    let w2 := if w1 < i32 (-I) then i32 (-I) else w1
    let b2 := if w1 < i32 (-I) then backlog + 1 else backlog
    let f2 := if saved > 0 ∧ c then fires + 1 else fires
    if I ≤ 0 then
      (w2, b2, f2)
    else
      timerCatchupLoop saved c I w2 b2 f2
  else
    (w, backlog, fires)
termination_by catchupMeasure interval wait
decreasing_by
  exact catchupMeasure_decreasing interval wait (by assumption) (by assumption)

/-- One tick-processing step for a single timer-callback record: the body
executed by `OS_TimeBase_CallbackThread` for that record when the sync
function delivers `tick` (a `uint32`).  Returns the updated record and the
number of times the callback fired during the step. -/
def OS_TimeBase_ProcessTick (cb : TimeCB) (tick : Nat) : TimeCB × Nat :=
  let saved := cb.wait_time
  let w0 := i32 (cb.wait_time - tick)
  let r := timerCatchupLoop saved cb.callback_set cb.interval_time w0 cb.backlog_resets 0
  ({ cb with wait_time := r.1, backlog_resets := r.2.1 }, r.2.2)

/-- Tick processing iterated over a sequence of sync-function results;
returns the final record and the total number of callback invocations. -/
def processTicks (cb : TimeCB) : List Nat → TimeCB × Nat
  | [] => (cb, 0)
  | t :: ts =>
    let r1 := OS_TimeBase_ProcessTick cb t
    let r2 := processTicks r1.1 ts
    (r2.1, r1.2 + r2.2)

/-! ### Free-run counter (C8)

`timebase->freerun_time += tick_time;` — `freerun_time` is a `uint32`, so
the accumulation wraps mod `2^32`.  `OS_TimeBaseGetFreeRun`
(osapi-timebase.c:352) returns the current field value on a successful
lookup. -/

/-- One `freerun_time += tick_time` update (uint32 arithmetic). -/
def freerunStep (freerun tick : Nat) : Nat := (freerun + tick) % 2 ^ 32

/-- `freerun_time` after the given sequence of sync results, starting from
the zeroed record produced at timebase creation. -/
def freerunAfter (ticks : List Nat) : Nat := ticks.foldl freerunStep 0

/-! ## Timebase API preludes (C9) and GetInfo routines (C10)

`OS_ObjectIdToType_Impl(OS_TaskGetId_Impl())` — the resource type encoded in
the calling task's own handle — is passed as `callerType`.  The portion of
each function past its argument/context checks is abstracted: `ApiOutcome`
records the returned status and whether execution reached the ID-manager /
global-table code. -/

def OS_MAX_API_NAME : Nat := 20

structure ApiOutcome where
  status : Int
  tableTouched : Bool
  deriving DecidableEq

/-- Prelude of `OS_TimeBaseCreate` (osapi-timebase.c:99): null pointers,
name length, then callback-context check; `rest` abstracts the allocate /
impl-create / finalize tail. -/
def OS_TimeBaseCreate (callerType : Nat) (ptrsNull : Bool) (nameLen : Nat)
    (rest : Int) : ApiOutcome :=
  if ptrsNull then ⟨OS_INVALID_POINTER, false⟩
  else if nameLen ≥ OS_MAX_API_NAME then ⟨OS_ERR_NAME_TOO_LONG, false⟩
  else if callerType = OS_OBJECT_TYPE_OS_TIMEBASE then ⟨OS_ERR_INCORRECT_OBJ_STATE, false⟩
  else ⟨rest, true⟩

/-- Prelude of `OS_TimeBaseSet` (osapi-timebase.c:174): argument range
check, then callback-context check. -/
def OS_TimeBaseSet (callerType : Nat) (start_time interval_time : Nat)
    (rest : Int) : ApiOutcome :=
  if interval_time ≥ 1000000000 ∨ start_time ≥ 1000000000 then
    ⟨OS_TIMER_ERR_INVALID_ARGS, false⟩
  else if callerType = OS_OBJECT_TYPE_OS_TIMEBASE then ⟨OS_ERR_INCORRECT_OBJ_STATE, false⟩
  else ⟨rest, true⟩

/-- Prelude of `OS_TimeBaseDelete` (osapi-timebase.c:234): callback-context
check only. -/
def OS_TimeBaseDelete (callerType : Nat) (rest : Int) : ApiOutcome :=
  if callerType = OS_OBJECT_TYPE_OS_TIMEBASE then ⟨OS_ERR_INCORRECT_OBJ_STATE, false⟩
  else ⟨rest, true⟩

/-- Prelude of `OS_TimeBaseGetIdByName` (osapi-timebase.c:270): null
pointers, then callback-context check. -/
def OS_TimeBaseGetIdByName (callerType : Nat) (ptrsNull : Bool)
    (rest : Int) : ApiOutcome :=
  if ptrsNull then ⟨OS_INVALID_POINTER, false⟩
  else if callerType = OS_OBJECT_TYPE_OS_TIMEBASE then ⟨OS_ERR_INCORRECT_OBJ_STATE, false⟩
  else ⟨rest, true⟩

/-- `OS_TimeBaseGetFreeRun` (osapi-timebase.c:352) in full: it performs no
callback-context check (`callerType` is never consulted by the source), only
the `OS_ObjectIdGetById(OS_LOCK_MODE_NONE, ...)` lookup, abstracted as
`lookup` (resolved freerun value) / `lookupErr` (status when it fails). -/
def OS_TimeBaseGetFreeRun (callerType : Nat) (lookup : Option Nat)
    (lookupErr : Int) : Int × Option Nat :=
  match lookup with
  | none => (lookupErr, none)
  | some freerun => (OS_SUCCESS, some freerun)

/-- Output structure of the GetInfo routines, as far as the shared layer
fills it: `name`/`creator` from the common record, `extra` standing for the
remaining numeric fields (zero after the `memset`). -/
structure ObjProp where
  name : List Char
  creator : Nat
  extra : Nat
  deriving DecidableEq

def zeroObjProp : ObjProp := ⟨[], 0, 0⟩

/-- `OS_QueueGetInfo` (osapi-queue.c:263), for a non-null `queue_prop`:
memset to zero, lookup (abstracted as the common-record name/creator on
success), copy name (truncated per `strncpy(_, _, OS_MAX_API_NAME - 1)`) and
creator.  `prev` is the caller's buffer content before the call. -/
def OS_QueueGetInfo (lookup : Option (List Char × Nat)) (lookupErr : Int)
    (prev : ObjProp) : Int × ObjProp :=
  let prop := zeroObjProp  -- memset(queue_prop, 0, sizeof(OS_queue_prop_t))
  match lookup with
  | none => (lookupErr, prop)
  | some (nm, cr) =>
    (OS_SUCCESS, { prop with name := nm.take (OS_MAX_API_NAME - 1), creator := cr })

/-- `OS_BinSemGetInfo` (src/osal/src/os/shared/src/osapi-binsem.c:287), for
a non-null `bin_prop`: like the queue variant, then the platform
`OS_BinSemGetInfo_Impl` (abstracted as `impl`) runs on the partially filled
structure and its status is returned. -/
def OS_BinSemGetInfo (lookup : Option (List Char × Nat)) (lookupErr : Int)
    (impl : ObjProp → Int × ObjProp) (prev : ObjProp) : Int × ObjProp :=
  let prop := zeroObjProp  -- memset(bin_prop, 0, sizeof(OS_bin_sem_prop_t))
  match lookup with
  | none => (lookupErr, prop)
  | some (nm, cr) =>
    let filled : ObjProp := { prop with name := nm.take (OS_MAX_API_NAME - 1), creator := cr }
    let r := impl filled
    (r.1, r.2)

/-- `OS_TimeBaseGetInfo` (osapi-timebase.c:303), for a non-null
`timebase_prop`: null check, then the callback-context check — which runs
BEFORE the `memset` — then zeroing, lookup, field copies and the platform
`OS_TimeBaseGetInfo_Impl` (abstracted as `impl`). -/
def OS_TimeBaseGetInfo (callerType : Nat) (lookup : Option (List Char × Nat))
    (lookupErr : Int) (impl : ObjProp → Int × ObjProp) (prev : ObjProp) :
    Int × ObjProp :=
  if callerType = OS_OBJECT_TYPE_OS_TIMEBASE then
    (OS_ERR_INCORRECT_OBJ_STATE, prev)
  else
    let prop := zeroObjProp  -- memset(timebase_prop, 0, sizeof(OS_timebase_prop_t))
    match lookup with
    | none => (lookupErr, prop)
    | some (nm, cr) =>
      let filled : ObjProp := { prop with name := nm.take (OS_MAX_API_NAME - 1), creator := cr }
      let r := impl filled
      (r.1, r.2)

end Osal

namespace Osal

/-! # Theorems for claims C5, C6, C7 -/

/-- C5 counterexample: at `msecs = 4000000000`, `TicksPerSecond = 1000`, the
exact tick count `4000000000000 / 1000 = 4 * 10^9` exceeds `INT_MAX`; the
claim says the value delivered to the platform is capped at `INT_MAX`, but
`OS_Milli2Ticks` instead returns `OS_ERROR` with `*ticks = 0`, and
`OS_BinSemTimedWait_Impl` never invokes the platform take at all. -/
theorem milli2ticks_no_cap_counterexample :
    OS_Milli2Ticks 4000000000 1000 = (OS_ERROR, 0) ∧
    (OS_BinSemTimedWait_Impl (fun _ => OS_SUCCESS) 4000000000 1000).2 = none := by
  constructor
  · rfl
  · rfl

/-- C5 amended: `OS_Milli2Ticks` computes `(ms × TicksPerSecond + 999) / 1000`
in exact 64-bit arithmetic; when the result is within `INT_MAX` it is returned
with `OS_SUCCESS` and is what `OS_BinSemTimedWait_Impl` delivers to the
platform take; when the result would exceed `INT_MAX` the call instead fails
with `OS_ERROR`, writes `0` to `*ticks`, and the platform take is never
invoked (no capping occurs). -/
theorem milli2ticks_spec (ms tps : Nat) (semTake : Int → Int) :
    (((ms * tps + 999) / 1000 : Int) ≤ INT_MAX →
      OS_Milli2Ticks ms tps = (OS_SUCCESS, (((ms * tps + 999) / 1000 : Nat) : Int)) ∧
      (OS_BinSemTimedWait_Impl semTake ms tps).2 =
        some (((ms * tps + 999) / 1000 : Nat) : Int)) ∧
    (((ms * tps + 999) / 1000 : Int) > INT_MAX →
      OS_Milli2Ticks ms tps = (OS_ERROR, 0) ∧
      (OS_BinSemTimedWait_Impl semTake ms tps) = (OS_ERROR, none)) := by
  have hcast : ((ms * tps + 999) / 1000 : Int) = (((ms * tps + 999) / 1000 : Nat) : Int) := by
    push_cast
    rfl
  constructor
  · intro h
    have h1 : OS_Milli2Ticks ms tps =
        (OS_SUCCESS, (((ms * tps + 999) / 1000 : Nat) : Int)) := by
      unfold OS_Milli2Ticks
      rw [if_pos (by omega)]
    refine ⟨h1, ?_⟩
    unfold OS_BinSemTimedWait_Impl
    rw [h1]
    simp
  · intro h
    have h1 : OS_Milli2Ticks ms tps = (OS_ERROR, 0) := by
      unfold OS_Milli2Ticks
      rw [if_neg (by omega)]
    refine ⟨h1, ?_⟩
    unfold OS_BinSemTimedWait_Impl
    rw [h1]
    have : OS_ERROR ≠ OS_SUCCESS := by decide
    simp [this]

/-- C5 amended witness: concrete evaluation on both branches. -/
theorem milli2ticks_spec_witness :
    ((((100 * 1000 + 999) / 1000 : Int) ≤ INT_MAX →
      OS_Milli2Ticks 100 1000 = (OS_SUCCESS, (((100 * 1000 + 999) / 1000 : Nat) : Int)) ∧
      (OS_BinSemTimedWait_Impl (fun _ => OS_SUCCESS) 100 1000).2 =
        some (((100 * 1000 + 999) / 1000 : Nat) : Int)) ∧
     (((100 * 1000 + 999) / 1000 : Int) > INT_MAX →
      OS_Milli2Ticks 100 1000 = (OS_ERROR, 0) ∧
      (OS_BinSemTimedWait_Impl (fun _ => OS_SUCCESS) 100 1000) = (OS_ERROR, none))) :=
  milli2ticks_spec 100 1000 (fun _ => OS_SUCCESS)

/-- Helper: the state at exit of the main delete loop satisfies the exit
condition, the try counter is bounded, no pass before the last visited zero
objects, and an early exit is explained by a zero-count pass. -/
theorem deleteAllLoop_spec (counts : Nat → Nat) (n : Nat) :
    ∀ t, t ≤ 4 → 5 - t ≤ n →
    ((deleteAllLoop counts t).2 = 0 ∨ (deleteAllLoop counts t).1 > 4) ∧
    (deleteAllLoop counts t).1 ≤ 5 ∧ t < (deleteAllLoop counts t).1 ∧
    (∀ k, t ≤ k → k + 1 < (deleteAllLoop counts t).1 → counts k ≠ 0) ∧
    ((deleteAllLoop counts t).1 < 5 → counts ((deleteAllLoop counts t).1 - 1) = 0) ∧
    (deleteAllLoop counts t).2 = counts ((deleteAllLoop counts t).1 - 1) := by
  induction n with
  | zero =>
    intro t ht hn
    omega
  | succ n ih =>
    intro t ht hn
    rw [deleteAllLoop]
    by_cases hexit : counts t = 0 ∨ t + 1 > 4
    · rw [if_pos hexit]
      refine ⟨?_, by omega, by omega, ?_, ?_, by simp⟩
      · rcases hexit with h | h
        · exact Or.inl h
        · exact Or.inr h
      · intro k hk1 hk2
        simp only at hk2
        omega
      · intro h5
        simp only at h5 ⊢
        rcases hexit with h | h
        · simpa using h
        · omega
    · rw [if_neg hexit]
      push_neg at hexit
      have ht' : t + 1 ≤ 4 := by omega
      obtain ⟨h1, h2, h3, h4, h5, h6⟩ := ih (t + 1) ht' (by omega)
      refine ⟨h1, h2, by omega, ?_, h5, h6⟩
      intro k hk1 hk2
      rcases Nat.eq_or_lt_of_le hk1 with rfl | hlt
      · exact hexit.1
      · exact h4 k (by omega) hk2

/-- C6: `OS_DeleteAllObjects` terminates by construction, makes at most five
passes, stops early exactly when a pass visits zero objects (no earlier pass
was zero), and at main-loop exit either the count is zero or the try counter
exceeds four, so the trailing busy-wait `while (ObjectCount > 0 && TryCount < 5);`
condition is false and the spin is never entered. -/
theorem deleteAllObjects_terminates (counts : Nat → Nat) :
    (OS_DeleteAllObjects counts).1 ≤ 5 ∧
    ((OS_DeleteAllObjects counts).2 = 0 ∨ (OS_DeleteAllObjects counts).1 > 4) ∧
    ¬ trailingSpinCondition (OS_DeleteAllObjects counts) ∧
    (∀ k, k + 1 < (OS_DeleteAllObjects counts).1 → counts k ≠ 0) ∧
    ((OS_DeleteAllObjects counts).1 < 5 →
      counts ((OS_DeleteAllObjects counts).1 - 1) = 0) := by
  obtain ⟨h1, h2, h3, h4, h5, h6⟩ := deleteAllLoop_spec counts 5 0 (by omega) (by omega)
  refine ⟨h2, h1, ?_, ?_, h5⟩
  · intro hc
    obtain ⟨hc1, hc2⟩ := hc
    unfold OS_DeleteAllObjects at hc1 hc2
    rcases h1 with h | h
    · omega
    · omega
  · intro k hk
    exact h4 k (by omega) hk

/-- C6 witness: with a shutdown sequence that finds 3 objects on the first
pass and none afterwards, the loop exits after two passes and the trailing
spin condition is false. -/
theorem deleteAllObjects_terminates_witness :
    (OS_DeleteAllObjects (fun k => if k = 0 then 3 else 0)).1 ≤ 5 ∧
    ¬ trailingSpinCondition (OS_DeleteAllObjects (fun k => if k = 0 then 3 else 0)) ∧
    ((OS_DeleteAllObjects (fun k => if k = 0 then 3 else 0)).1 < 5 →
      (fun k => if k = 0 then 3 else 0) ((OS_DeleteAllObjects (fun k => if k = 0 then 3 else 0)).1 - 1) = 0) :=
  ⟨(deleteAllObjects_terminates (fun k => if k = 0 then 3 else 0)).1,
   (deleteAllObjects_terminates (fun k => if k = 0 then 3 else 0)).2.2.1,
   (deleteAllObjects_terminates (fun k => if k = 0 then 3 else 0)).2.2.2.2⟩

/-- C7: if the global `Initialized` flag is already set, `OS_API_Init`
returns `OS_ERROR` immediately and the global state is returned unchanged —
no table, adapter or wrapper initialization runs (for every possible
initialization body).  On a fresh state the body runs on the state with
`Initialized` set to true. -/
theorem apiInit_idempotent_rejecting {α : Type}
    (initBody : GlobalState α → GlobalState α × Int) (s : GlobalState α) :
    (s.initialized = true → OS_API_Init initBody s = (s, OS_ERROR)) ∧
    (s.initialized = false →
      OS_API_Init initBody s = initBody { s with initialized := true }) := by
  constructor
  · intro h
    unfold OS_API_Init
    rw [h]
    simp
  · intro h
    unfold OS_API_Init
    rw [h]
    simp

/-- C7 witness: concrete second call on an already-initialized state. -/
theorem apiInit_idempotent_rejecting_witness :
    let s : GlobalState Unit := ⟨true, ()⟩
    let body : GlobalState Unit → GlobalState Unit × Int := fun t => (t, OS_SUCCESS)
    OS_API_Init body s = (s, OS_ERROR) :=
  (apiInit_idempotent_rejecting (fun t => (t, OS_SUCCESS)) ⟨true, ()⟩).1 rfl

/-! # Theorems for claim C4 (queue get size check) -/

/-- C4: on a valid queue handle (successful lookup) with non-null pointers,
a buffer strictly smaller than the queue's configured `max_size` makes
`OS_QueueGet` return `OS_QUEUE_INVALID_SIZE`, write `0` to `*size_copied`,
and never invoke the platform `OS_QueueGet_Impl` (no message is consumed) —
for every queue table, every lookup-error code and every possible adapter
behaviour. -/
theorem queueGet_small_buffer (queueTable : Nat → QueueRecord) (local_id : Nat)
    (lookupErr : Int) (implResult : Int × Nat) (size : Nat)
    (h : size < (queueTable local_id).max_size) :
    OS_QueueGet queueTable (some local_id) lookupErr implResult size =
      { status := OS_QUEUE_INVALID_SIZE, size_copied := some 0, implCalled := false } := by
  simp only [OS_QueueGet]
  rw [if_pos h]

/-- C4 witness: queue with `max_size = 8`, buffer of 4 bytes. -/
theorem queueGet_small_buffer_witness :
    OS_QueueGet (fun _ => ⟨4, 8⟩) (some 0) OS_ERR_INVALID_ID (OS_SUCCESS, 8) 4 =
      { status := OS_QUEUE_INVALID_SIZE, size_copied := some 0, implCalled := false } :=
  queueGet_small_buffer (fun _ => ⟨4, 8⟩) 0 OS_ERR_INVALID_ID (OS_SUCCESS, 8) 4 (by decide)

/-! # Theorems for claim C2 (TranslatePath validation) -/

/-- A mounted `/cf` filesystem entry backed by system mount point `/r`. -/
def cfEntry : FileSysEntry :=
  { active := true
    device_name := ['c', 'f']
    volume_name := ['c', 'f']
    system_mountpt := ['/', 'r']
    virtual_mountpt := ['/', 'c', 'f']
    flags := { isReady := true, isFixed := false,
               isMountedSystem := true, isMountedVirtual := true } }

/-- C2 counterexample: the claim says a path with no filename component
after the last `/` (such as `"/cf/"`) is rejected with
`OS_FS_ERR_PATH_INVALID`, but the source has no empty-filename check: with
`/cf` mounted, `OS_TranslatePath("/cf/", out)` succeeds and produces
`"/r/"`. -/
theorem translatePath_empty_filename_counterexample :
    OS_TranslatePath defaultFsConfig [cfEntry] ['/', 'c', 'f', '/'] =
      (OS_SUCCESS, some ['/', 'r', '/']) ∧
    OS_SUCCESS ≠ OS_FS_ERR_PATH_INVALID := by
  constructor
  · rfl
  · decide

/-- C2 amended: for a virtual path within `OS_MAX_PATH_LEN`,
`OS_TranslatePath` fails with `FS_ERR_PATH_INVALID` when the path contains
no `/` at all, or (when the filename component fits) when it does not start
with `/`, or when no mounted filesystem's virtual mount point matches; it
fails with `FS_ERR_NAME_TOO_LONG` when the component after the last `/` is
`OS_MAX_FILE_NAME` characters or longer.  An empty filename component is
not rejected per se: such a path is translated normally when a mounted
filesystem matches it. -/
theorem translatePath_validation (cfg : FsConfig) (table : List FileSysEntry)
    (p : List Char) (hlen : p.length < cfg.maxPathLen) :
    (¬ p.contains '/' → OS_TranslatePath cfg table p = (OS_FS_ERR_PATH_INVALID, none)) ∧
    (p.contains '/' → (filenameAfterLastSlash p).length ≥ cfg.maxFileName →
      OS_TranslatePath cfg table p = (OS_FS_ERR_NAME_TOO_LONG, none)) ∧
    (p.contains '/' → (filenameAfterLastSlash p).length < cfg.maxFileName →
      p.head? ≠ some '/' →
      OS_TranslatePath cfg table p = (OS_FS_ERR_PATH_INVALID, none)) ∧
    (p.head? = some '/' → (filenameAfterLastSlash p).length < cfg.maxFileName →
      fsSearch table (OS_FileSys_FindVirtMountPoint p) = none →
      OS_TranslatePath cfg table p = (OS_FS_ERR_PATH_INVALID, none)) := by
  have hnotlong : ¬ p.length ≥ cfg.maxPathLen := by omega
  refine ⟨?_, ?_, ?_, ?_⟩
  · intro hslash
    unfold OS_TranslatePath
    rw [if_neg hnotlong, if_pos hslash]
  · intro hslash hname
    unfold OS_TranslatePath
    rw [if_neg hnotlong, if_neg (by simpa using hslash), if_pos hname]
  · intro hslash hname hhead
    unfold OS_TranslatePath
    rw [if_neg hnotlong, if_neg (by simpa using hslash), if_neg (by omega), if_pos hhead]
  · intro hhead hname hsearch
    have hslash : p.contains '/' := by
      cases p with
      | nil => simp at hhead
      | cons a as =>
        simp only [List.head?] at hhead
        simp [List.contains, Option.some_inj.mp hhead]
    unfold OS_TranslatePath
    rw [if_neg hnotlong, if_neg (by simpa using hslash), if_neg (by omega),
        if_neg (by simp [hhead]), hsearch]

/-- C2 amended witness: concrete checks of each rejection branch at the
default configuration. -/
theorem translatePath_validation_witness :
    (¬ (['c', 'f'] : List Char).contains '/' →
      OS_TranslatePath defaultFsConfig [] ['c', 'f'] = (OS_FS_ERR_PATH_INVALID, none)) ∧
    ((['c', 'f'] : List Char).contains '/' →
      (filenameAfterLastSlash ['c', 'f']).length ≥ defaultFsConfig.maxFileName →
      OS_TranslatePath defaultFsConfig [] ['c', 'f'] = (OS_FS_ERR_NAME_TOO_LONG, none)) ∧
    ((['c', 'f'] : List Char).contains '/' →
      (filenameAfterLastSlash ['c', 'f']).length < defaultFsConfig.maxFileName →
      (['c', 'f'] : List Char).head? ≠ some '/' →
      OS_TranslatePath defaultFsConfig [] ['c', 'f'] = (OS_FS_ERR_PATH_INVALID, none)) ∧
    ((['c', 'f'] : List Char).head? = some '/' →
      (filenameAfterLastSlash ['c', 'f']).length < defaultFsConfig.maxFileName →
      fsSearch [] (OS_FileSys_FindVirtMountPoint ['c', 'f']) = none →
      OS_TranslatePath defaultFsConfig [] ['c', 'f'] = (OS_FS_ERR_PATH_INVALID, none)) :=
  translatePath_validation defaultFsConfig [] ['c', 'f'] (by decide)

/-! # Theorems for claim C3 (mount/unmount error masking) -/

/-- C3: for every `OS_mount` call that passes its pointer and length
checks — over every table content and every adapter outcome — any failure
(device not found, flag state not exactly READY modulo FIXED, empty system
mount point, or adapter mount failure) yields `OS_ERR_NAME_NOT_FOUND`, the
more specific inner code being overwritten; on success the entry gains the
MOUNTED_SYSTEM and MOUNTED_VIRTUAL flags and records the given virtual
mount point.  `OS_unmount` likewise returns `OS_ERR_NAME_NOT_FOUND` for
every post-validation failure. -/
theorem mount_unmount_masking (cfg : FsConfig) (implMount implUnmount : Int)
    (table : List FileSysEntry) (devname mountpoint : List Char)
    (hdev : devname.length < cfg.fsDevNameLen)
    (hmp : mountpoint.length < cfg.maxPathLen) :
    (fsSearch table (fun r => r.device_name = devname) = none →
      OS_mount cfg implMount table devname mountpoint = (OS_ERR_NAME_NOT_FOUND, table)) ∧
    (∀ i rec, fsSearch table (fun r => r.device_name = devname) = some (i, rec) →
      ((¬ (rec.flags.isReady ∧ ¬ rec.flags.isMountedSystem ∧
           ¬ rec.flags.isMountedVirtual) ∨
        rec.system_mountpt.length = 0 ∨ implMount ≠ OS_SUCCESS) →
        OS_mount cfg implMount table devname mountpoint = (OS_ERR_NAME_NOT_FOUND, table)) ∧
      ((rec.flags.isReady ∧ ¬ rec.flags.isMountedSystem ∧
        ¬ rec.flags.isMountedVirtual) → rec.system_mountpt.length ≠ 0 →
        implMount = OS_SUCCESS →
        OS_mount cfg implMount table devname mountpoint =
          (OS_SUCCESS,
           table.set i
             { rec with
               flags := { rec.flags with isMountedSystem := true, isMountedVirtual := true }
               virtual_mountpt := mountpoint }))) ∧
    ((OS_mount cfg implMount table devname mountpoint).1 = OS_SUCCESS ∨
     (OS_mount cfg implMount table devname mountpoint).1 = OS_ERR_NAME_NOT_FOUND) ∧
    ((OS_unmount cfg implUnmount table mountpoint).1 = OS_SUCCESS ∨
     (OS_unmount cfg implUnmount table mountpoint).1 = OS_ERR_NAME_NOT_FOUND) := by
  have hnotlen : ¬ (devname.length ≥ cfg.fsDevNameLen ∨
      mountpoint.length ≥ cfg.maxPathLen) := by omega
  have hnotmp : ¬ mountpoint.length ≥ cfg.maxPathLen := by omega
  refine ⟨?_, ?_, ?_, ?_⟩
  · intro hsearch
    unfold OS_mount
    rw [if_neg hnotlen, hsearch]
  · intro i rec hsearch
    constructor
    · intro hfail
      have hrc : mountInnerRC rec implMount ≠ OS_SUCCESS := by
        unfold mountInnerRC
        by_cases h1 : (rec.flags.isReady ∧ ¬ rec.flags.isMountedSystem ∧
            ¬ rec.flags.isMountedVirtual)
        · rw [if_neg (not_not_intro h1)]
          by_cases h2 : rec.system_mountpt.length = 0
          · rw [if_pos h2]; decide
          · rw [if_neg h2]
            rcases hfail with h | h | h
            · exact absurd h1 h
            · exact absurd h h2
            · exact h
        · rw [if_pos h1]; decide
      unfold OS_mount
      rw [if_neg hnotlen]
      simp only [hsearch, if_neg hrc]
    · intro hflags hsys himpl
      have hrc : mountInnerRC rec implMount = OS_SUCCESS := by
        unfold mountInnerRC
        rw [if_neg (not_not_intro hflags), if_neg hsys]
        exact himpl
      unfold OS_mount
      rw [if_neg hnotlen]
      simp only [hsearch, if_pos hrc]
  · unfold OS_mount
    rw [if_neg hnotlen]
    cases hsearch : fsSearch table (fun r => r.device_name = devname) with
    | none => right; rfl
    | some v =>
      obtain ⟨i, rec⟩ := v
      by_cases hrc : mountInnerRC rec implMount = OS_SUCCESS
      · simp only [if_pos hrc]; left; trivial
      · simp only [if_neg hrc]; right; trivial
  · unfold OS_unmount
    rw [if_neg hnotmp]
    cases hsearch : fsSearch table (OS_FileSys_FindVirtMountPoint mountpoint) with
    | none => right; rfl
    | some v =>
      obtain ⟨i, rec⟩ := v
      by_cases hrc : unmountInnerRC rec implUnmount = OS_SUCCESS
      · simp only [if_pos hrc]; left; trivial
      · simp only [if_neg hrc]; right; trivial

/-- C3 witness: a single ready, unmounted device `cf`; mount succeeds
and records the virtual mount point. -/
theorem mount_unmount_masking_witness :
    let rdy : FileSysEntry :=
      { active := true
        device_name := ['c', 'f']
        volume_name := ['c', 'f']
        system_mountpt := ['/', 'r']
        virtual_mountpt := []
        flags := { isReady := true, isFixed := false,
                   isMountedSystem := false, isMountedVirtual := false } }
    (OS_mount defaultFsConfig OS_SUCCESS [rdy] ['c', 'f'] ['/', 'c', 'f']).1 = OS_SUCCESS ∨
    (OS_mount defaultFsConfig OS_SUCCESS [rdy] ['c', 'f'] ['/', 'c', 'f']).1 =
      OS_ERR_NAME_NOT_FOUND :=
  (mount_unmount_masking defaultFsConfig OS_SUCCESS OS_SUCCESS _ _ _
    (by decide) (by decide)).2.2.1

/-! # Theorems for claim C8 (free-run counter) -/

/-- Folding the uint32 accumulation from any reduced start equals the
reduced exact sum. -/
theorem foldl_freerunStep (ticks : List Nat) :
    ∀ init, ticks.foldl freerunStep (init % 2 ^ 32) = (init + ticks.sum) % 2 ^ 32 := by
  induction ticks with
  | nil =>
    intro init
    simp
  | cons t ts ih =>
    intro init
    have h1 : freerunStep (init % 2 ^ 32) t = (init + t) % 2 ^ 32 := by
      unfold freerunStep; omega
    calc (t :: ts).foldl freerunStep (init % 2 ^ 32)
        = ts.foldl freerunStep ((init + t) % 2 ^ 32) := by
          rw [List.foldl_cons, h1]
      _ = (init + t + ts.sum) % 2 ^ 32 := ih (init + t)
      _ = (init + (t :: ts).sum) % 2 ^ 32 := by
          rw [List.sum_cons]; ring_nf

/-- C8 counterexample: `freerun_time` is a `uint32` and wraps mod `2^32`.
With sync results `[2^32 - 1, 2]` (legal `uint32` values) the counter goes
from `2^32 - 1` down to `1`, so it is not non-decreasing, and `1` differs
from the exact sum `2^32 + 1`. -/
theorem freerun_wrap_counterexample :
    freerunAfter [2 ^ 32 - 1] = 2 ^ 32 - 1 ∧
    freerunAfter [2 ^ 32 - 1, 2] = 1 ∧
    freerunAfter [2 ^ 32 - 1, 2] < freerunAfter [2 ^ 32 - 1] ∧
    freerunAfter [2 ^ 32 - 1, 2] ≠ ([2 ^ 32 - 1, 2] : List Nat).sum := by
  refine ⟨?_, ?_, ?_, ?_⟩ <;> decide

/-- C8 amended: after any sequence of processed ticks since creation the
free-run counter equals the sum of the sync results reduced mod `2^32`
(the value `OS_TimeBaseGetFreeRun` reads back); it equals the exact sum,
and is non-decreasing step to step, as long as the accumulated total stays
below `2^32`. -/
theorem freerun_equals_sum_mod (ticks : List Nat) (t : Nat) :
    freerunAfter ticks = ticks.sum % 2 ^ 32 ∧
    (ticks.sum < 2 ^ 32 → freerunAfter ticks = ticks.sum) ∧
    (ticks.sum + t < 2 ^ 32 → freerunAfter ticks ≤ freerunAfter (ticks ++ [t])) := by
  have hbase : freerunAfter ticks = ticks.sum % 2 ^ 32 := by
    have := foldl_freerunStep ticks 0
    simpa [freerunAfter] using this
  refine ⟨hbase, ?_, ?_⟩
  · intro h
    rw [hbase]
    omega
  · intro h
    have happ : freerunAfter (ticks ++ [t]) = (ticks.sum + t) % 2 ^ 32 := by
      have := foldl_freerunStep (ticks ++ [t]) 0
      simpa [freerunAfter] using this
    rw [hbase, happ]
    omega

/-- C8 amended witness: two small ticks. -/
theorem freerun_equals_sum_mod_witness :
    freerunAfter [5, 7] = ([5, 7] : List Nat).sum % 2 ^ 32 ∧
    (([5, 7] : List Nat).sum < 2 ^ 32 → freerunAfter [5, 7] = ([5, 7] : List Nat).sum) ∧
    (([5, 7] : List Nat).sum + 3 < 2 ^ 32 →
      freerunAfter [5, 7] ≤ freerunAfter ([5, 7] ++ [3])) :=
  freerun_equals_sum_mod [5, 7] 3

/-! # Theorems for claim C9 (callback-context rejection) -/

/-- C9 counterexample: `OS_TimeBaseGetFreeRun` performs no callback-context
check — called with the caller's handle type equal to `timebase` and a valid
id it succeeds and reads the table, instead of failing with
`OS_ERR_INCORRECT_OBJ_STATE` as the claim states for every listed
operation. -/
theorem timebase_getfreerun_no_context_check_counterexample :
    OS_TimeBaseGetFreeRun OS_OBJECT_TYPE_OS_TIMEBASE (some 42) OS_ERR_INVALID_ID =
      (OS_SUCCESS, some 42) ∧
    OS_SUCCESS ≠ OS_ERR_INCORRECT_OBJ_STATE := by
  constructor
  · rfl
  · decide

/-- C9 amended: of the listed operations, `OS_TimeBaseCreate`,
`OS_TimeBaseSet`, `OS_TimeBaseDelete`, `OS_TimeBaseGetIdByName` and
`OS_TimeBaseGetInfo` (given arguments passing their earlier pointer /
length / range checks) fail with `OS_ERR_INCORRECT_OBJ_STATE` before
touching any table when invoked from a task whose own handle has resource
type `timebase`; `OS_TimeBaseGetFreeRun` performs no such check and
proceeds to the lookup regardless of the calling context. -/
theorem timebase_callback_context_rejection (nameLen start interval : Nat)
    (rest lookupErr : Int) (freerun : Nat) (impl : ObjProp → Int × ObjProp)
    (prev : ObjProp) (lookup : Option (List Char × Nat))
    (hname : nameLen < OS_MAX_API_NAME)
    (hstart : start < 1000000000) (hintvl : interval < 1000000000) :
    OS_TimeBaseCreate OS_OBJECT_TYPE_OS_TIMEBASE false nameLen rest =
      ⟨OS_ERR_INCORRECT_OBJ_STATE, false⟩ ∧
    OS_TimeBaseSet OS_OBJECT_TYPE_OS_TIMEBASE start interval rest =
      ⟨OS_ERR_INCORRECT_OBJ_STATE, false⟩ ∧
    OS_TimeBaseDelete OS_OBJECT_TYPE_OS_TIMEBASE rest =
      ⟨OS_ERR_INCORRECT_OBJ_STATE, false⟩ ∧
    OS_TimeBaseGetIdByName OS_OBJECT_TYPE_OS_TIMEBASE false rest =
      ⟨OS_ERR_INCORRECT_OBJ_STATE, false⟩ ∧
    (OS_TimeBaseGetInfo OS_OBJECT_TYPE_OS_TIMEBASE lookup lookupErr impl prev).1 =
      OS_ERR_INCORRECT_OBJ_STATE ∧
    OS_TimeBaseGetFreeRun OS_OBJECT_TYPE_OS_TIMEBASE (some freerun) lookupErr =
      (OS_SUCCESS, some freerun) := by
  refine ⟨?_, ?_, ?_, ?_, ?_, rfl⟩
  · unfold OS_TimeBaseCreate
    rw [if_neg (by simp), if_neg (by omega), if_pos rfl]
  · unfold OS_TimeBaseSet
    rw [if_neg (by omega), if_pos rfl]
  · unfold OS_TimeBaseDelete
    rw [if_pos rfl]
  · unfold OS_TimeBaseGetIdByName
    rw [if_neg (by simp), if_pos rfl]
  · unfold OS_TimeBaseGetInfo
    rw [if_pos rfl]

/-- C9 amended witness: concrete arguments. -/
theorem timebase_callback_context_rejection_witness :
    OS_TimeBaseCreate OS_OBJECT_TYPE_OS_TIMEBASE false 4 OS_SUCCESS =
      ⟨OS_ERR_INCORRECT_OBJ_STATE, false⟩ ∧
    OS_TimeBaseGetFreeRun OS_OBJECT_TYPE_OS_TIMEBASE (some 0) OS_ERR_INVALID_ID =
      (OS_SUCCESS, some 0) :=
  ⟨(timebase_callback_context_rejection 4 0 0 OS_SUCCESS OS_ERR_INVALID_ID 0
      (fun p => (OS_SUCCESS, p)) zeroObjProp none (by decide) (by decide) (by decide)).1,
   (timebase_callback_context_rejection 4 0 0 OS_SUCCESS OS_ERR_INVALID_ID 0
      (fun p => (OS_SUCCESS, p)) zeroObjProp none (by decide) (by decide) (by decide)).2.2.2.2.2⟩

/-! # Theorems for claim C10 (GetInfo zero-fill on error) -/

/-- C10 counterexample: `OS_TimeBaseGetInfo` performs its callback-context
check before the `memset`, so that rejection path returns an error with the
caller's buffer untouched — here a stale non-zero buffer survives the
failing call, contradicting the claim that every error return leaves the
structure zero-filled. -/
theorem timebase_getinfo_stale_buffer_counterexample :
    OS_TimeBaseGetInfo OS_OBJECT_TYPE_OS_TIMEBASE (some (['x'], 1)) OS_ERR_INVALID_ID
        (fun p => (OS_SUCCESS, p)) ⟨['s'], 7, 9⟩ =
      (OS_ERR_INCORRECT_OBJ_STATE, ⟨['s'], 7, 9⟩) ∧
    (⟨['s'], 7, 9⟩ : ObjProp) ≠ zeroObjProp := by
  constructor
  · rfl
  · decide

/-- C10 amended: `OS_QueueGetInfo`, `OS_BinSemGetInfo` and (past its
callback-context check) `OS_TimeBaseGetInfo` zero the output structure
before the handle lookup, so a failed lookup (stale or wrong-type handle)
returns with the caller's structure entirely zero-filled; the one exception
is `OS_TimeBaseGetInfo`'s callback-context rejection, which returns
`OS_ERR_INCORRECT_OBJ_STATE` before the zeroing and leaves the buffer
untouched. -/
theorem getinfo_zero_fill_on_error (lookupErr : Int)
    (impl : ObjProp → Int × ObjProp) (prev : ObjProp) (callerType : Nat)
    (hct : callerType ≠ OS_OBJECT_TYPE_OS_TIMEBASE) :
    OS_QueueGetInfo none lookupErr prev = (lookupErr, zeroObjProp) ∧
    OS_BinSemGetInfo none lookupErr impl prev = (lookupErr, zeroObjProp) ∧
    OS_TimeBaseGetInfo callerType none lookupErr impl prev = (lookupErr, zeroObjProp) ∧
    OS_TimeBaseGetInfo OS_OBJECT_TYPE_OS_TIMEBASE none lookupErr impl prev =
      (OS_ERR_INCORRECT_OBJ_STATE, prev) := by
  refine ⟨rfl, rfl, ?_, ?_⟩
  · unfold OS_TimeBaseGetInfo
    rw [if_neg hct]
  · unfold OS_TimeBaseGetInfo
    rw [if_pos rfl]

/-! # Theorems for claim C1 (timer firing discipline)

Helper lemmas about the catch-up loop, then the claim theorems. -/

/-- Loop exit: a positive wait time leaves the state untouched. -/
theorem timerCatchupLoop_exit (saved : Int) (c : Bool) (interval wait : Int)
    (b f : Nat) (hw : 0 < i32 wait) :
    timerCatchupLoop saved c interval wait b f = (i32 wait, b, f) := by
  rw [timerCatchupLoop]
  rw [if_neg (by omega)]

/-- The loop only depends on the stored `int32` images of its arguments. -/
theorem timerCatchupLoop_norm (saved : Int) (c : Bool) (interval wait : Int)
    (b f : Nat) :
    timerCatchupLoop saved c interval wait b f =
      timerCatchupLoop saved c (i32 interval) (i32 wait) b f := by
  conv_lhs => rw [timerCatchupLoop]
  conv_rhs => rw [timerCatchupLoop]
  simp only [i32_i32]

/-- One-shot body (`interval_time = 0`): a single iteration runs, the wait
time is clamped to `0` (with a backlog reset when it was negative), the
callback fires when the saved wait was positive, and the `break` on
`interval_time <= 0` ends the loop. -/
theorem timerCatchupLoop_oneshot (saved : Int) (c : Bool) (wait : Int) (b f : Nat)
    (h1 : -2 ^ 31 ≤ wait) (h2 : wait ≤ 0) :
    timerCatchupLoop saved c 0 wait b f =
      (0, if wait < 0 then b + 1 else b, if 0 < saved ∧ c = true then f + 1 else f) := by
  have hz : i32 0 = 0 := by unfold i32; omega
  have hw : i32 wait = wait := i32_eq_self h1 (by omega)
  rw [timerCatchupLoop]
  rw [hz, hw, if_pos h2]
  rw [add_zero, neg_zero, hz, hw, if_pos (by omega : (0:Int) ≤ 0)]
  by_cases hneg : wait < 0
  · rw [if_pos hneg, if_pos hneg]
  · have : wait = 0 := by omega
    rw [if_neg hneg, if_neg hneg, this]

/-- One unfolding of the loop body in the periodic case. -/
theorem timerCatchupLoop_step (saved : Int) (c : Bool) (I w : Int) (b f : Nat)
    (hI1 : 0 < I) (hI2 : I < 2 ^ 31) (hw1 : -2 ^ 31 ≤ w) (hw2 : w ≤ 0) :
    timerCatchupLoop saved c I w b f =
      timerCatchupLoop saved c I (if w + I < -I then -I else w + I)
        (if w + I < -I then b + 1 else b)
        (if 0 < saved ∧ c = true then f + 1 else f) := by
  have hI : i32 I = I := i32_eq_self (by omega) hI2
  have hw : i32 w = w := i32_eq_self hw1 (by omega)
  have hsum : i32 (w + I) = w + I := i32_eq_self (by omega) (by omega)
  have hneg : i32 (-I) = -I := i32_eq_self (by omega) (by omega)
  conv_lhs => rw [timerCatchupLoop]
  rw [hI, hw, hsum, hneg, if_pos hw2, if_neg (by omega : ¬ I ≤ 0)]

/-- Periodic catch-up within one interval: exactly one iteration, one fire,
no clamp. -/
theorem timerCatchupLoop_periodic_once (saved : Int) (c : Bool) (I w : Int)
    (b f : Nat) (hI1 : 0 < I) (hI2 : I < 2 ^ 31) (hw1 : -I < w) (hw2 : w ≤ 0) :
    timerCatchupLoop saved c I w b f =
      (w + I, b, if 0 < saved ∧ c = true then f + 1 else f) := by
  rw [timerCatchupLoop_step saved c I w b f hI1 hI2 (by omega) hw2]
  rw [if_neg (by omega : ¬ w + I < -I), if_neg (by omega : ¬ w + I < -I)]
  rw [timerCatchupLoop_exit _ _ _ _ _ _
    (by rw [i32_eq_self (by omega) (by omega)]; omega)]
  rw [i32_eq_self (by omega) (by omega)]

/-- From a wait time already clamped into `[-interval, 0]` the loop fires at
most twice more. -/
theorem timerCatchupLoop_fires_phase2 (saved : Int) (c : Bool) (I w : Int)
    (b f : Nat) (hI1 : 0 < I) (hI2 : I < 2 ^ 31) (hw1 : -I ≤ w) (hw2 : w ≤ 0) :
    (timerCatchupLoop saved c I w b f).2.2 ≤ f + 2 := by
  by_cases hw0 : -I < w
  · rw [timerCatchupLoop_periodic_once saved c I w b f hI1 hI2 hw0 hw2]
    split_ifs <;> simp
  · rw [timerCatchupLoop_step saved c I w b f hI1 hI2 (by omega) hw2]
    rw [if_neg (by omega : ¬ w + I < -I), if_neg (by omega : ¬ w + I < -I)]
    have h0 : w + I = 0 := by omega
    rw [h0]
    rw [timerCatchupLoop_periodic_once saved c I 0 _ _ hI1 hI2 (by omega) le_rfl]
    split_ifs <;> simp

/-- The backlog clamp bounds the loop at three callback invocations,
whatever the starting state. -/
theorem timerCatchupLoop_fires_le (saved : Int) (c : Bool) (interval wait : Int)
    (b f : Nat) : (timerCatchupLoop saved c interval wait b f).2.2 ≤ f + 3 := by
  have hJr := i32_range interval
  have hwr := i32_range wait
  rw [timerCatchupLoop_norm]
  by_cases h1 : 0 < i32 wait
  · rw [timerCatchupLoop_exit _ _ _ _ _ _ (by rw [i32_i32]; exact h1)]
    simp
  · by_cases h2 : i32 interval ≤ 0
    · rw [timerCatchupLoop]
      simp only [i32_i32]
      rw [if_pos (by omega : i32 wait ≤ 0), if_pos h2]
      split_ifs <;> simp
    · rw [timerCatchupLoop_step saved c (i32 interval) (i32 wait) b f
        (by omega) (by omega) (by omega) (by omega)]
      by_cases h3 : i32 wait + i32 interval < -(i32 interval)
      · rw [if_pos h3, if_pos h3]
        have hp2 := timerCatchupLoop_fires_phase2 saved c (i32 interval)
          (-(i32 interval)) (b + 1) (if 0 < saved ∧ c = true then f + 1 else f)
          (by omega) (by omega) (by omega) (by omega)
        have hf2 : (if 0 < saved ∧ c = true then f + 1 else f) ≤ f + 1 := by
          split_ifs <;> omega
        omega
      · rw [if_neg h3, if_neg h3]
        by_cases h4 : 0 < i32 wait + i32 interval
        · rw [timerCatchupLoop_exit _ _ _ _ _ _
            (by rw [i32_eq_self (by omega) (by omega)]; exact h4)]
          split_ifs <;> simp
        · have hp2 := timerCatchupLoop_fires_phase2 saved c (i32 interval)
            (i32 wait + i32 interval) b (if 0 < saved ∧ c = true then f + 1 else f)
            (by omega) (by omega) (by omega) (by omega)
          have hf2 : (if 0 < saved ∧ c = true then f + 1 else f) ≤ f + 1 := by
            split_ifs <;> omega
          omega

/-- Per-step fire bound for a whole record. -/
theorem processTick_fires_le_3 (cb : TimeCB) (tick : Nat) :
    (OS_TimeBase_ProcessTick cb tick).2 ≤ 3 := by
  have h := timerCatchupLoop_fires_le cb.wait_time cb.callback_set cb.interval_time
    (i32 (cb.wait_time - tick)) cb.backlog_resets 0
  simpa [OS_TimeBase_ProcessTick] using h

/-- One tick-processing step of a one-shot record (`interval_time = 0`). -/
theorem processTick_oneshot_step (w : Int) (b : Nat) (c : Bool) (tick : Nat)
    (hw1 : 0 ≤ w) (hw2 : w < 2 ^ 31) (ht : tick ≤ 2 ^ 31) :
    OS_TimeBase_ProcessTick ⟨w, 0, b, c⟩ tick =
      if (tick : Int) < w then (⟨w - tick, 0, b, c⟩, 0)
      else (⟨0, 0, if w < (tick : Int) then b + 1 else b, c⟩,
            if 0 < w ∧ c = true then 1 else 0) := by
  have htI : (0 : Int) ≤ (tick : Int) := by positivity
  have htI2 : (tick : Int) ≤ 2 ^ 31 := by exact_mod_cast ht
  have hrange : i32 (w - tick) = w - tick :=
    i32_eq_self (by omega) (by omega)
  by_cases hcase : (tick : Int) < w
  · rw [if_pos hcase]
    simp only [OS_TimeBase_ProcessTick]
    rw [timerCatchupLoop_exit _ _ _ _ _ _ (by rw [i32_i32, hrange]; omega)]
    rw [i32_i32, hrange]
  · rw [if_neg hcase]
    simp only [OS_TimeBase_ProcessTick]
    rw [timerCatchupLoop_oneshot _ _ _ _ _ (by omega) (by rw [hrange]; omega)]
    rw [hrange]
    simp [sub_neg]

/-- One tick-processing step of a periodic record in its steady region
(`0 < wait ≤ interval`, tick within one interval). -/
theorem processTick_periodic_step (w I : Int) (b : Nat) (tick : Nat)
    (hI1 : 0 < I) (hI2 : I < 2 ^ 31) (hw1 : 0 < w) (hw2 : w ≤ I)
    (ht : (tick : Int) ≤ I) :
    OS_TimeBase_ProcessTick ⟨w, I, b, true⟩ tick =
      if (tick : Int) < w then (⟨w - tick, I, b, true⟩, 0)
      else (⟨w - tick + I, I, b, true⟩, 1) := by
  have htI : (0 : Int) ≤ (tick : Int) := by positivity
  have hrange : i32 (w - tick) = w - tick :=
    i32_eq_self (by omega) (by omega)
  by_cases hcase : (tick : Int) < w
  · rw [if_pos hcase]
    simp only [OS_TimeBase_ProcessTick]
    rw [timerCatchupLoop_exit _ _ _ _ _ _ (by rw [i32_i32, hrange]; omega)]
    rw [i32_i32, hrange]
  · rw [if_neg hcase]
    simp only [OS_TimeBase_ProcessTick]
    rw [timerCatchupLoop_periodic_once _ _ _ _ _ _ hI1 hI2
      (by rw [hrange]; omega) (by rw [hrange]; omega)]
    rw [hrange]
    rw [if_pos (by exact ⟨hw1, rfl⟩ : 0 < w ∧ true = true)]

/-- A fired one-shot record (`wait_time = 0`, `interval_time = 0`) never
fires again over any further tick sequence. -/
theorem processTicks_zero (ts : List Nat) :
    ∀ b c, (∀ t ∈ ts, t ≤ 2 ^ 31) →
    ∃ b', processTicks ⟨0, 0, b, c⟩ ts = (⟨0, 0, b', c⟩, 0) := by
  induction ts with
  | nil =>
    intro b c _
    exact ⟨b, rfl⟩
  | cons t ts ih =>
    intro b c hts
    have hstep := processTick_oneshot_step 0 b c t le_rfl (by norm_num)
      (hts t (by simp))
    rw [if_neg (by omega : ¬ (t : Int) < 0)] at hstep
    rw [if_neg (by simp : ¬ (0 < (0:Int) ∧ c = true))] at hstep
    obtain ⟨b', hb'⟩ := ih (if (0:Int) < (t : Int) then b + 1 else b) c
      (fun x hx => hts x (by simp [hx]))
    refine ⟨b', ?_⟩
    show (let r1 := OS_TimeBase_ProcessTick ⟨0, 0, b, c⟩ t
          let r2 := processTicks r1.1 ts
          (r2.1, r1.2 + r2.2)) = (⟨0, 0, b', c⟩, 0)
    rw [hstep]
    simpa using hb'

/-- Total fires of an armed one-shot over a tick sequence: exactly one once
the accumulated ticks reach the wait time, zero before that. -/
theorem processTicks_oneshot_total (ts : List Nat) :
    ∀ (w : Int) (b : Nat), 0 < w → w < 2 ^ 31 → (∀ t ∈ ts, t ≤ 2 ^ 31) →
    (processTicks ⟨w, 0, b, true⟩ ts).2 =
      if w ≤ (ts.sum : Int) then 1 else 0 := by
  induction ts with
  | nil =>
    intro w b hw1 hw2 _
    simp only [processTicks, List.sum_nil]
    rw [if_neg (by omega : ¬ w ≤ ((0 : Nat) : Int))]
  | cons t ts ih =>
    intro w b hw1 hw2 hts
    have hstep := processTick_oneshot_step w b true t (by omega) hw2
      (hts t (by simp))
    by_cases hcase : (t : Int) < w
    · rw [if_pos hcase] at hstep
      have hrec := ih (w - t) b (by omega) (by omega)
        (fun x hx => hts x (by simp [hx]))
      show (let r1 := OS_TimeBase_ProcessTick ⟨w, 0, b, true⟩ t
            let r2 := processTicks r1.1 ts
            (r2.1, r1.2 + r2.2)).2 = if w ≤ ((t :: ts).sum : Int) then 1 else 0
      rw [hstep]
      simp only [List.sum_cons, Nat.cast_add]
      rw [hrec]
      by_cases hsum : w ≤ (t : Int) + (ts.sum : Int)
      · rw [if_pos (by omega : w - (t:Int) ≤ ((ts.sum : Nat) : Int)), if_pos hsum]
      · rw [if_neg (by omega : ¬ w - (t:Int) ≤ ((ts.sum : Nat) : Int)), if_neg hsum]
    · rw [if_neg hcase] at hstep
      rw [if_pos (by exact ⟨hw1, rfl⟩ : 0 < w ∧ true = true)] at hstep
      obtain ⟨b', hzero⟩ := processTicks_zero ts
        (if w < (t : Int) then b + 1 else b) true
        (fun x hx => hts x (by simp [hx]))
      show (let r1 := OS_TimeBase_ProcessTick ⟨w, 0, b, true⟩ t
            let r2 := processTicks r1.1 ts
            (r2.1, r1.2 + r2.2)).2 = if w ≤ ((t :: ts).sum : Int) then 1 else 0
      rw [hstep]
      simp only [List.sum_cons]
      rw [if_pos (by rw [Nat.cast_add]; omega : w ≤ ((t + ts.sum : Nat) : Int))]
      simp [hzero]

/-- C1 counterexample: a periodic record with `wait_time = 5`,
`interval_time = 10` processing a single tick of `tick_time = 100` fires its
callback three times in that one step (catch-up iterations at wait
`-85 → clamp -10`, `0`, `10`), refuting "invoked at most once per processed
tick, regardless of how large the tick_time delivered to that step is". -/
theorem timer_fires_thrice_counterexample :
    OS_TimeBase_ProcessTick ⟨5, 10, 0, true⟩ 100 = (⟨10, 10, 1, true⟩, 3) ∧
    ¬ (OS_TimeBase_ProcessTick ⟨5, 10, 0, true⟩ 100).2 ≤ 1 := by
  have h1 : i32 ((5 : Int) - ((100 : Nat) : Int)) = -95 := by norm_num [i32]
  have hloop : timerCatchupLoop 5 true 10 (-95) 0 0 = (10, 1, 3) := by
    calc timerCatchupLoop 5 true 10 (-95) 0 0
        = timerCatchupLoop 5 true 10 (-10) 1 1 := by
          rw [timerCatchupLoop_step 5 true 10 (-95) 0 0 (by norm_num) (by norm_num)
            (by norm_num) (by norm_num)]
          norm_num
      _ = timerCatchupLoop 5 true 10 0 1 2 := by
          rw [timerCatchupLoop_step 5 true 10 (-10) 1 1 (by norm_num) (by norm_num)
            (by norm_num) (by norm_num)]
          norm_num
      _ = (10, 1, 3) := by
          rw [timerCatchupLoop_periodic_once 5 true 10 0 1 2 (by norm_num) (by norm_num)
            (by norm_num) le_rfl]
          norm_num
  have heval : OS_TimeBase_ProcessTick ⟨5, 10, 0, true⟩ 100 = (⟨10, 10, 1, true⟩, 3) := by
    simp only [OS_TimeBase_ProcessTick, h1, hloop]
  exact ⟨heval, by rw [heval]; norm_num⟩

/-- C1 amended: with every `tick_time` below `2^31` (no `int32` wrap in the
`wait_time` arithmetic): (1) a record armed with `wait_time > 0`,
`interval_time = 0` and a callback fires exactly once over any tick
sequence — on the step whose tick takes the accumulated time past the wait
— and never afterwards; (2) a periodic record in its steady region
(`0 < wait ≤ interval`) processing a tick of at most one interval fires
exactly once when the tick reaches the wait time and zero times otherwise;
(3) in every case — including ticks spanning several intervals — a single
processed tick invokes the callback at most three times (the backlog clamp
bound), not at most once as claimed. -/
theorem timer_firing_discipline :
    (∀ (w : Int) (b : Nat) (ts : List Nat), 0 < w → w < 2 ^ 31 →
      (∀ t ∈ ts, t ≤ 2 ^ 31) →
      (processTicks ⟨w, 0, b, true⟩ ts).2 = if w ≤ (ts.sum : Int) then 1 else 0) ∧
    (∀ (w I : Int) (b : Nat) (tick : Nat), 0 < I → I < 2 ^ 31 → 0 < w → w ≤ I →
      (tick : Int) ≤ I →
      OS_TimeBase_ProcessTick ⟨w, I, b, true⟩ tick =
        if (tick : Int) < w then (⟨w - tick, I, b, true⟩, 0)
        else (⟨w - tick + I, I, b, true⟩, 1)) ∧
    (∀ (cb : TimeCB) (tick : Nat), (OS_TimeBase_ProcessTick cb tick).2 ≤ 3) := by
  refine ⟨?_, ?_, ?_⟩
  · intro w b ts hw1 hw2 hts
    exact processTicks_oneshot_total ts w b hw1 hw2 hts
  · intro w I b tick h1 h2 h3 h4 h5
    exact processTick_periodic_step w I b tick h1 h2 h3 h4 h5
  · exact processTick_fires_le_3

/-- C1 amended witness: a one-shot of 2 µs over ticks `[1, 1]`, a periodic
step, and the three-fire bound at the counterexample input. -/
theorem timer_firing_discipline_witness :
    (processTicks ⟨2, 0, 0, true⟩ [1, 1]).2 =
      (if (2 : Int) ≤ (([1, 1] : List Nat).sum : Int) then 1 else 0) ∧
    OS_TimeBase_ProcessTick ⟨3, 10, 0, true⟩ 4 =
      (if ((4 : Nat) : Int) < 3 then (⟨3 - ((4 : Nat) : Int), 10, 0, true⟩, 0)
       else (⟨3 - ((4 : Nat) : Int) + 10, 10, 0, true⟩, 1)) ∧
    (OS_TimeBase_ProcessTick ⟨5, 10, 0, true⟩ 100).2 ≤ 3 :=
  ⟨timer_firing_discipline.1 2 0 [1, 1] (by decide) (by decide) (by decide),
   timer_firing_discipline.2.1 3 10 0 4 (by decide) (by decide) (by decide)
     (by decide) (by decide),
   timer_firing_discipline.2.2 ⟨5, 10, 0, true⟩ 100⟩

/-- C10 amended witness: concrete stale buffer and failing lookup. -/
theorem getinfo_zero_fill_on_error_witness :
    OS_QueueGetInfo none OS_ERR_INVALID_ID ⟨['s'], 7, 9⟩ =
      (OS_ERR_INVALID_ID, zeroObjProp) ∧
    OS_BinSemGetInfo none OS_ERR_INVALID_ID (fun p => (OS_SUCCESS, p)) ⟨['s'], 7, 9⟩ =
      (OS_ERR_INVALID_ID, zeroObjProp) ∧
    OS_TimeBaseGetInfo 1 none OS_ERR_INVALID_ID (fun p => (OS_SUCCESS, p)) ⟨['s'], 7, 9⟩ =
      (OS_ERR_INVALID_ID, zeroObjProp) ∧
    OS_TimeBaseGetInfo OS_OBJECT_TYPE_OS_TIMEBASE none OS_ERR_INVALID_ID
        (fun p => (OS_SUCCESS, p)) ⟨['s'], 7, 9⟩ =
      (OS_ERR_INCORRECT_OBJ_STATE, ⟨['s'], 7, 9⟩) :=
  getinfo_zero_fill_on_error OS_ERR_INVALID_ID (fun p => (OS_SUCCESS, p))
    ⟨['s'], 7, 9⟩ 1 (by decide)

end Osal
